import Mathlib

/-!
Verification development for `streamlit_app.py` of the `inscripciones-evento`
repository: a shallow embedding of its database operations
(`create_booking_atomic`, `fetch_sessions`), of the booking-form submit
handler's field normalization, and of the admin password gate, together with
theorems about the claimed properties.

Modelling notes:
* The persistence layer (PostgreSQL accessed through psycopg2) is embedded as
  an explicit state `DB`: the `public.sessions` rows, the `public.bookings`
  rows, and the next value of the serial sequence backing `bookings.id`.
* `create_booking_atomic` holds a `select ... for update` row lock for the
  whole transaction, so concurrent calls on a session are serialized; the
  function is therefore embedded as one atomic state transition.
* psycopg2's connection context manager (`with connect() as conn:`) commits
  the open transaction when the block exits normally and rolls back only on
  an exception (documented psycopg2 behaviour; the connection is not closed).
  Each embedded call therefore also reports the list of transaction-control
  operations performed, in order: the explicit `conn.rollback()` /
  `conn.commit()` calls in the function body, followed by the commit issued
  by the context manager on normal exit.
* Python `str` values are embedded as Lean `String`s; `str.strip()` and
  `str.lower()` are embedded over the character list (`String.data`), with
  Python's ASCII whitespace set and ASCII case mapping.
-/

/-- A row of `public.sessions`. `event_date`, `start_time` and `end_time` are
opaque codes (their internal structure is never used by the embedded code
beyond equality and ordering). `capacity` is an SQL integer. -/
structure Session where
  id : Nat
  event_date : Nat
  activity : String
  start_time : Nat
  end_time : Nat
  capacity : Int
  deriving Repr, DecidableEq

/-- A row of `public.bookings`: serial id, foreign key to a session, and the
attendee fields inserted by `create_booking_atomic`. -/
structure Booking where
  id : Nat
  session_id : Nat
  full_name : String
  phone : String
  email : String
  deriving Repr, DecidableEq

/-- The persistent state: sessions table, bookings table, and the next value
of the serial sequence that assigns `bookings.id` on insert. -/
structure DB where
  sessions : List Session
  bookings : List Booking
  nextBookingId : Nat
  deriving Repr, DecidableEq

/-- Embedding of `select count(*)::int as booked from public.bookings where session_id=%s`:
the number of booking rows referencing `sid`. -/
def bookedCount (bookings : List Booking) (sid : Nat) : Nat :=
  (bookings.filter (fun b => b.session_id == sid)).length

/-- A transaction-control operation issued on the psycopg2 connection. -/
inductive TxnOp where
  | commit
  | rollback
  deriving Repr, DecidableEq

/-- The `(ok, msg)` pair returned by `create_booking_atomic`. -/
structure CallResult where
  ok : Bool
  msg : String
  deriving Repr, DecidableEq

/-- Message of `return False, "Sesión no encontrada."` -/
def sessionNotFoundMsg : String := "Sesión no encontrada."

/-- Message of `return False, "Lo sentimos: esa sesión se acaba de llenar."` -/
def sessionFullMsg : String := "Lo sentimos: esa sesión se acaba de llenar."

/-- Message of `return True, "¡Reserva confirmada!"` -/
def bookingConfirmedMsg : String := "¡Reserva confirmada!"

/-- Shallow embedding of `create_booking_atomic(session_id, full_name, phone,
email)`.  The returned triple is: the state after the call, the `(ok, msg)`
pair the Python function returns, and the transaction-control trace (explicit
`conn.rollback()` / `conn.commit()` calls in body order, then the commit the
connection context manager issues on normal exit of the `with` block).

Path correspondence with the source:
* session row not found: `return False, "Sesión no encontrada."` leaves the
  `with` block normally, so the context manager commits the (read-only)
  transaction — trace `[.commit]`, no write;
* `remaining <= 0`: explicit `conn.rollback()` then return — trace
  `[.rollback, .commit]`, no write;
* otherwise: insert one bookings row (its serial id — `returning id;` — is
  fetched into `_` and discarded), explicit `conn.commit()`, normal exit —
  trace `[.commit, .commit]`. -/
def create_booking_atomic (db : DB) (session_id : Nat)
    (full_name phone email : String) : DB × CallResult × List TxnOp :=
  match db.sessions.find? (fun s => s.id == session_id) with
  | none =>
      (db, ⟨false, sessionNotFoundMsg⟩, [TxnOp.commit])
  | some srow =>
      let booked : Nat := bookedCount db.bookings session_id
      let capacity : Int := srow.capacity
      let remaining : Int := capacity - (booked : Int)
      if remaining ≤ 0 then
        (db, ⟨false, sessionFullMsg⟩, [TxnOp.rollback, TxnOp.commit])
      else
        let newRow : Booking :=
          { id := db.nextBookingId, session_id := session_id,
            full_name := full_name, phone := phone, email := email }
        ({ sessions := db.sessions,
           bookings := db.bookings ++ [newRow],
           nextBookingId := db.nextBookingId + 1 },
         ⟨true, bookingConfirmedMsg⟩, [TxnOp.commit, TxnOp.commit])

/-- The row shape produced by the SQL query of `fetch_sessions`:
`select s.id, s.activity, s.start_time, s.end_time, s.capacity,
count(b.id) as booked` grouped by session. -/
structure SessionQueryRow where
  id : Nat
  activity : String
  start_time : Nat
  end_time : Nat
  capacity : Int
  booked : Nat
  deriving Repr, DecidableEq

/-- A row of `fetch_sessions`' result after the Python loop adds
`r["remaining"] = int(r["capacity"]) - int(r["booked"])`. -/
structure SessionView where
  id : Nat
  activity : String
  start_time : Nat
  end_time : Nat
  capacity : Int
  booked : Nat
  remaining : Int
  deriving Repr, DecidableEq

/-- The comparison behind `order by s.activity, s.start_time`. -/
def rowLE (a b : SessionQueryRow) : Bool :=
  a.activity < b.activity || (a.activity == b.activity && a.start_time ≤ b.start_time)

/-- Insertion into a sorted list (helper for the `order by` embedding). -/
def insertSorted (x : SessionQueryRow) : List SessionQueryRow → List SessionQueryRow
  | [] => [x]
  | y :: t => if rowLE x y then x :: y :: t else y :: insertSorted x t

/-- Insertion sort implementing the SQL `order by s.activity, s.start_time`. -/
def sortRows (l : List SessionQueryRow) : List SessionQueryRow :=
  l.foldr insertSorted []

/-- Shallow embedding of `fetch_sessions(event_date)`: the SQL query (left
join with `public.bookings`, grouped per session, so `booked` is the number
of booking rows referencing the session, ordered by activity and start time),
followed by the Python loop computing `remaining = capacity - booked`. -/
def fetch_sessions (db : DB) (event_date : Nat) : List SessionView :=
  let rows : List SessionQueryRow :=
    (db.sessions.filter (fun s => s.event_date == event_date)).map (fun s =>
      { id := s.id, activity := s.activity, start_time := s.start_time,
        end_time := s.end_time, capacity := s.capacity,
        booked := bookedCount db.bookings s.id })
  (sortRows rows).map (fun r =>
    { id := r.id, activity := r.activity, start_time := r.start_time,
      end_time := r.end_time, capacity := r.capacity, booked := r.booked,
      remaining := r.capacity - (r.booked : Int) })

/-! ### Python string helpers used by the submit handler -/

/-- Python's `str.strip()` whitespace set (ASCII part), by codepoint: space
(32), tab (9), newline (10), carriage return (13), vertical tab (11), form
feed (12). -/
def isPySpace (c : Char) : Bool :=
  c.toNat == 32 || c.toNat == 9 || c.toNat == 10 ||
  c.toNat == 13 || c.toNat == 11 || c.toNat == 12

/-- Python `str.strip()`: drop leading and trailing whitespace. -/
def pyStrip (s : String) : String :=
  ⟨((s.data.dropWhile isPySpace).reverse.dropWhile isPySpace).reverse⟩

/-- ASCII case mapping of Python `str.lower()` on one character: `A`–`Z`
(codepoints 65–90) maps to `a`–`z` (codepoints 97–122), everything else is
unchanged. -/
def pyLowerChar (c : Char) : Char :=
  if 65 ≤ c.toNat ∧ c.toNat ≤ 90 then Char.ofNat (c.toNat + 32) else c

/-- Python `str.lower()` (ASCII case mapping). -/
def pyLower (s : String) : String := ⟨s.data.map pyLowerChar⟩

/-- Whether a character list starts with a Python whitespace character. -/
def headIsSpace : List Char → Bool
  | [] => false
  | c :: _ => isPySpace c

/-- Whether a string has leading whitespace. -/
def hasLeadingSpace (s : String) : Bool := headIsSpace s.data

/-- Whether a string has trailing whitespace. -/
def hasTrailingSpace (s : String) : Bool := headIsSpace s.data.reverse

/-- Whether a string contains an ASCII uppercase letter (codepoint 65–90). -/
def hasAsciiUpper (s : String) : Bool :=
  s.data.any (fun c => 65 ≤ c.toNat && c.toNat ≤ 90)

/-- The attendee fields as the submit handler passes them to
`create_booking_atomic`: `full_name.strip()`, `phone.strip()`,
`email.strip().lower()` (lines 183–188 of the source). -/
def normalizeSubmission (full_name phone email : String) : String × String × String :=
  (pyStrip full_name, pyStrip phone, pyLower (pyStrip email))

/-- The booking-form submit handler's call into the core (after its field
validation passed): `create_booking_atomic(selected_session["id"],
full_name.strip(), phone.strip(), email.strip().lower())`. -/
def submitBooking (db : DB) (session_id : Nat)
    (full_name phone email : String) : DB × CallResult × List TxnOp :=
  create_booking_atomic db session_id (pyStrip full_name) (pyStrip phone)
    (pyLower (pyStrip email))

/-! ### Admin gate -/

/-- Embedding of `get_admin_password()`: the secret `st.secrets["admin"]["password"]` when
set, otherwise `os.environ.get("ADMIN_PASSWORD", "")`. -/
def get_admin_password (secretsPassword envPassword : Option String) : String :=
  match secretsPassword with
  | some p => p
  | none =>
      match envPassword with
      | some p => p
      | none => ""

/-- What the admin expander does with the entered password. -/
inductive AdminOutcome where
  | granted
  | wrongPassword
  | noAction
  deriving Repr, DecidableEq

/-- Shallow embedding of the admin expander's gate:
`if admin_pw and admin_pw == get_admin_password(): ... elif admin_pw: error`.
Python's truthiness of a string is "non-empty". -/
def adminGate (admin_pw stored : String) : AdminOutcome :=
  if admin_pw ≠ "" ∧ admin_pw = stored then AdminOutcome.granted
  else if admin_pw ≠ "" then AdminOutcome.wrongPassword
  else AdminOutcome.noAction

/-! ### Iterated booking attempts -/

/-- One booking attempt: target session and attendee fields. -/
structure Attempt where
  session_id : Nat
  full_name : String
  phone : String
  email : String
  deriving Repr, DecidableEq

/-- State reached after a sequence of `create_booking_atomic` calls (the row
lock serializes concurrent attempts on a session, so any concurrent execution
is some sequential order of the calls). -/
def runAttempts (db : DB) : List Attempt → DB
  | [] => db
  | a :: rest =>
      runAttempts (create_booking_atomic db a.session_id a.full_name a.phone a.email).1 rest

/-- Capacity invariant: every session has at most `capacity` booking rows
referencing it. -/
def CapacityInv (db : DB) : Prop :=
  ∀ s ∈ db.sessions, (bookedCount db.bookings s.id : Int) ≤ s.capacity

instance (db : DB) : Decidable (CapacityInv db) := by
  unfold CapacityInv
  infer_instance

/-- Schema well-formedness: session ids are unique (`sessions.id` is the
primary key) and the serial sequence is ahead of every existing booking id. -/
def WF (db : DB) : Prop :=
  (db.sessions.map (fun s => s.id)).Nodup ∧
  ∀ b ∈ db.bookings, b.id < db.nextBookingId

-- Scratch checks of the embedding on the spec's scenarios.
def sampleSession : Session :=
  { id := 1, event_date := 0, activity := "Yoga", start_time := 900,
    end_time := 1000, capacity := 1 }

def sampleDB : DB := { sessions := [sampleSession], bookings := [], nextBookingId := 10 }

-- Scenario A: capacity=1, booked=0: succeeds.
example : (create_booking_atomic sampleDB 1 "Ana" "600123456" "ana@x.com").2.1.ok = true := by
  decide

-- Scenario C: nonexistent session 9999: SessionNotFound, no rollback issued.
example :
    (create_booking_atomic sampleDB 9999 "Ana" "600123456" "ana@x.com").2.2
      = [TxnOp.commit] := by
  decide

-- Scenario B: capacity=1, booked=1: SessionFull, explicit rollback.
def fullDB : DB :=
  { sessions := [sampleSession],
    bookings := [{ id := 5, session_id := 1, full_name := "Eva", phone := "p", email := "e@x.com" }],
    nextBookingId := 10 }

/-- A database with no sessions at all. -/
def emptyDB : DB := { sessions := [], bookings := [], nextBookingId := 0 }

example : (create_booking_atomic fullDB 1 "Ana" "600123456" "ana@x.com").2
      = (⟨false, sessionFullMsg⟩, [TxnOp.rollback, TxnOp.commit]) := by
  decide

/-! ### Helper lemmas about the booking transaction -/

theorem bookedCount_append (bs : List Booking) (b : Booking) (sid : Nat) :
    bookedCount (bs ++ [b]) sid =
      bookedCount bs sid + (if b.session_id = sid then 1 else 0) := by
  by_cases h : b.session_id = sid <;>
    simp [bookedCount, List.filter_append, h]

/-- Exhaustive case analysis of `create_booking_atomic`: the three source
paths (session not found / session full / insert-and-commit) with the exact
state, result and transaction trace of each. -/
theorem create_spec (db : DB) (sid : Nat) (n p e : String) :
    (db.sessions.find? (fun s => s.id == sid) = none ∧
      create_booking_atomic db sid n p e
        = (db, ⟨false, sessionNotFoundMsg⟩, [TxnOp.commit])) ∨
    (∃ srow, db.sessions.find? (fun s => s.id == sid) = some srow ∧
      srow.capacity - (bookedCount db.bookings sid : Int) ≤ 0 ∧
      create_booking_atomic db sid n p e
        = (db, ⟨false, sessionFullMsg⟩, [TxnOp.rollback, TxnOp.commit])) ∨
    (∃ srow, db.sessions.find? (fun s => s.id == sid) = some srow ∧
      0 < srow.capacity - (bookedCount db.bookings sid : Int) ∧
      create_booking_atomic db sid n p e
        = ({ sessions := db.sessions,
             bookings := db.bookings ++ [⟨db.nextBookingId, sid, n, p, e⟩],
             nextBookingId := db.nextBookingId + 1 },
           ⟨true, bookingConfirmedMsg⟩, [TxnOp.commit, TxnOp.commit])) := by
  unfold create_booking_atomic
  cases hfind : db.sessions.find? (fun s => s.id == sid) with
  | none => exact Or.inl ⟨rfl, rfl⟩
  | some srow =>
      by_cases hrem : srow.capacity - (bookedCount db.bookings sid : Int) ≤ 0
      · exact Or.inr (Or.inl ⟨srow, rfl, hrem, by simp [hrem]⟩)
      · exact Or.inr (Or.inr ⟨srow, rfl, by omega, by simp [hrem]⟩)

theorem create_sessions_eq (db : DB) (sid : Nat) (n p e : String) :
    (create_booking_atomic db sid n p e).1.sessions = db.sessions := by
  rcases create_spec db sid n p e with ⟨_, h⟩ | ⟨srow, _, _, h⟩ | ⟨srow, _, _, h⟩ <;>
    rw [h]

theorem create_fail_eq (db : DB) (sid : Nat) (n p e : String)
    (hfail : (create_booking_atomic db sid n p e).2.1.ok = false) :
    (create_booking_atomic db sid n p e).1 = db := by
  rcases create_spec db sid n p e with ⟨_, h⟩ | ⟨srow, _, _, h⟩ | ⟨srow, _, _, h⟩ <;>
    rw [h] at hfail ⊢
  simp at hfail

theorem create_bookings_cases (db : DB) (sid : Nat) (n p e : String) :
    (create_booking_atomic db sid n p e).1.bookings = db.bookings ∨
    (create_booking_atomic db sid n p e).1.bookings
      = db.bookings ++ [⟨db.nextBookingId, sid, n, p, e⟩] := by
  rcases create_spec db sid n p e with ⟨_, h⟩ | ⟨srow, _, _, h⟩ | ⟨srow, _, _, h⟩ <;>
    rw [h]
  · exact Or.inl rfl
  · exact Or.inl rfl
  · exact Or.inr rfl

theorem capacityInv_step (db : DB) (sid : Nat) (n p e : String)
    (hids : (db.sessions.map (fun s => s.id)).Nodup)
    (hinv : CapacityInv db) :
    CapacityInv (create_booking_atomic db sid n p e).1 := by
  rcases create_spec db sid n p e with ⟨_, h⟩ | ⟨srow, _, _, h⟩ | ⟨srow, hfind, hrem, h⟩ <;>
    rw [h]
  · exact hinv
  · exact hinv
  · intro s hs
    simp only [CapacityInv] at hinv
    simp only at hs ⊢
    rw [bookedCount_append]
    have hsrow_mem : srow ∈ db.sessions := List.mem_of_find?_eq_some hfind
    have hsrow_id : srow.id = sid := by
      have hp := List.find?_some hfind
      simpa using hp
    show ((bookedCount db.bookings s.id + if sid = s.id then 1 else 0 : Nat) : Int)
      ≤ s.capacity
    by_cases hid : s.id = sid
    · have hss : s = srow :=
        List.inj_on_of_nodup_map hids hs hsrow_mem (by rw [hid, hsrow_id])
      have hcap : 0 < s.capacity - (bookedCount db.bookings sid : Int) := by
        rw [hss]; exact hrem
      rw [if_pos hid.symm, hid]
      push_cast
      push_cast at hcap
      omega
    · rw [if_neg (fun hx => hid hx.symm)]
      simpa using hinv s hs

/-- C1: for every session, the number of committed Booking rows referencing
it never exceeds its capacity.  `create_booking_atomic` inserts only when the
booked count observed under the session row lock is strictly less than the
session's capacity, so no sequence of (serialized) booking attempts can drive
the booking count above capacity: the capacity invariant is preserved by any
sequence of `create_booking_atomic` calls, given the primary-key uniqueness
of session ids. -/
theorem capacity_invariant_preserved (db : DB) (attempts : List Attempt)
    (hids : (db.sessions.map (fun s => s.id)).Nodup)
    (hinv : CapacityInv db) :
    CapacityInv (runAttempts db attempts) := by
  induction attempts generalizing db with
  | nil => exact hinv
  | cons a rest ih =>
      exact ih _ (by rw [create_sessions_eq]; exact hids)
        (capacityInv_step db a.session_id a.full_name a.phone a.email hids hinv)

/-- Witness for `capacity_invariant_preserved`: a concrete capacity-1 session
hit by three attempts keeps at most one booking. -/
theorem capacity_invariant_preserved_witness :
    ((sampleDB.sessions.map (fun s => s.id)).Nodup ∧ CapacityInv sampleDB) ∧
    CapacityInv (runAttempts sampleDB
      [⟨1, "Ana", "600123456", "ana@x.com"⟩,
       ⟨1, "Eva", "600123457", "eva@x.com"⟩,
       ⟨1, "Iva", "600123458", "iva@x.com"⟩]) :=
  ⟨⟨by decide, by decide⟩,
    capacity_invariant_preserved sampleDB _ (by decide) (by decide)⟩

/-- C2: if, at the moment the session row lock is held, remaining =
capacity - bookedCount is less than or equal to zero, `create_booking_atomic`
rolls back explicitly (its transaction trace is the explicit
`conn.rollback()` followed by the context-manager commit), returns the
SessionFull error, and inserts no new Booking row (the state is unchanged). -/
theorem session_full_rolls_back (db : DB) (sid : Nat) (n p e : String)
    (srow : Session)
    (hfind : db.sessions.find? (fun s => s.id == sid) = some srow)
    (hfull : srow.capacity - (bookedCount db.bookings sid : Int) ≤ 0) :
    create_booking_atomic db sid n p e
      = (db, ⟨false, sessionFullMsg⟩, [TxnOp.rollback, TxnOp.commit]) := by
  unfold create_booking_atomic
  rw [hfind]
  simp [hfull]

/-- Witness for `session_full_rolls_back`: concrete full session. -/
theorem session_full_rolls_back_witness :
    (fullDB.sessions.find? (fun s => s.id == 1) = some sampleSession ∧
     sampleSession.capacity - (bookedCount fullDB.bookings 1 : Int) ≤ 0) ∧
    create_booking_atomic fullDB 1 "Ana" "600123456" "ana@x.com"
      = (fullDB, ⟨false, sessionFullMsg⟩, [TxnOp.rollback, TxnOp.commit]) :=
  ⟨⟨by decide, by decide⟩,
    session_full_rolls_back fullDB 1 "Ana" "600123456" "ana@x.com" sampleSession
      (by decide) (by decide)⟩

/-- C3 counterexample: with the sample database and the nonexistent session
id 9999, `create_booking_atomic` returns the SessionNotFound error and
performs no writes, but it does not abort the transaction: no rollback
appears in its transaction trace — the source returns from inside the
`with connect() as conn:` block, and psycopg2's connection context manager
commits the (empty, read-only) transaction on normal exit. -/
theorem session_not_found_commits_counterexample :
    (create_booking_atomic sampleDB 9999 "Ana" "600123456" "ana@x.com").2.1
      = ⟨false, sessionNotFoundMsg⟩ ∧
    TxnOp.rollback ∉ (create_booking_atomic sampleDB 9999 "Ana" "600123456" "ana@x.com").2.2 ∧
    (create_booking_atomic sampleDB 9999 "Ana" "600123456" "ana@x.com").2.2
      = [TxnOp.commit] := by
  decide

/-- C3 (amended): if the given sessionId does not refer to any existing
session, `create_booking_atomic` performs no writes (the state is unchanged)
and returns the SessionNotFound error; the transaction is ended not by an
abort but by the connection context manager's commit of the empty read-only
transaction. -/
theorem session_not_found_no_writes (db : DB) (sid : Nat) (n p e : String)
    (hnone : ∀ s ∈ db.sessions, s.id ≠ sid) :
    create_booking_atomic db sid n p e
      = (db, ⟨false, sessionNotFoundMsg⟩, [TxnOp.commit]) := by
  have hfind : db.sessions.find? (fun s => s.id == sid) = none := by
    apply List.find?_eq_none.mpr
    intro s hs
    simpa using hnone s hs
  unfold create_booking_atomic
  rw [hfind]

/-- Witness for `session_not_found_no_writes`. -/
theorem session_not_found_no_writes_witness :
    (∀ s ∈ sampleDB.sessions, s.id ≠ 9999) ∧
    create_booking_atomic sampleDB 9999 "Noa" "600123459" "noa@x.com"
      = (sampleDB, ⟨false, sessionNotFoundMsg⟩, [TxnOp.commit]) :=
  ⟨by decide,
    session_not_found_no_writes sampleDB 9999 "Noa" "600123459" "noa@x.com" (by decide)⟩

/-- C4: every call to `create_booking_atomic` inserts exactly one Booking row
when it returns success — the bookings table becomes exactly the old table
plus one new row referencing the targeted session, the sessions table is
unchanged, and the booked count of every other session is unchanged — and
inserts zero Booking rows when it returns any error: the whole state is then
unchanged (atomic commit/rollback boundary, no partial write). -/
theorem booking_write_discipline (db : DB) (sid : Nat) (n p e : String) :
    ((create_booking_atomic db sid n p e).2.1.ok = true →
      (create_booking_atomic db sid n p e).1.sessions = db.sessions ∧
      (create_booking_atomic db sid n p e).1.bookings
        = db.bookings ++ [⟨db.nextBookingId, sid, n, p, e⟩] ∧
      ∀ sid2, sid2 ≠ sid →
        bookedCount (create_booking_atomic db sid n p e).1.bookings sid2
          = bookedCount db.bookings sid2) ∧
    ((create_booking_atomic db sid n p e).2.1.ok = false →
      (create_booking_atomic db sid n p e).1 = db) := by
  constructor
  · intro hok
    rcases create_spec db sid n p e with ⟨_, h⟩ | ⟨srow, _, _, h⟩ | ⟨srow, _, _, h⟩ <;>
      rw [h] at hok ⊢
    · simp at hok
    · simp at hok
    · refine ⟨rfl, rfl, ?_⟩
      intro sid2 hne
      show bookedCount (db.bookings ++ [⟨db.nextBookingId, sid, n, p, e⟩]) sid2
        = bookedCount db.bookings sid2
      rw [bookedCount_append]
      show bookedCount db.bookings sid2 + (if sid = sid2 then 1 else 0)
        = bookedCount db.bookings sid2
      rw [if_neg (fun hx => hne hx.symm)]
      exact Nat.add_zero _
  · exact create_fail_eq db sid n p e

/-- Witness for `booking_write_discipline`: a successful concrete call
appends exactly one row. -/
theorem booking_write_discipline_witness :
    (create_booking_atomic sampleDB 1 "Ana" "600123456" "ana@x.com").2.1.ok = true ∧
    (create_booking_atomic sampleDB 1 "Ana" "600123456" "ana@x.com").1.bookings
      = sampleDB.bookings ++ [⟨10, 1, "Ana", "600123456", "ana@x.com"⟩] :=
  ⟨by decide,
    ((booking_write_discipline sampleDB 1 "Ana" "600123456" "ana@x.com").1
      (by decide)).2.1⟩

/-- C6 counterexample: calling `create_booking_atomic` on a database with no
sessions takes an abort path (it returns the SessionNotFound error), yet no
rollback appears anywhere in its transaction trace, refuting the claim that
every abort path explicitly rolls back before returning. -/
theorem abort_path_without_rollback_counterexample :
    (create_booking_atomic emptyDB 1 "Noa" "600123459" "noa@x.com").2.1.ok = false ∧
    TxnOp.rollback ∉ (create_booking_atomic emptyDB 1 "Noa" "600123459" "noa@x.com").2.2 := by
  decide

/-- C6 (amended): the SessionFull abort path explicitly rolls back before
returning its error; the SessionNotFound abort path returns its error without
an explicit rollback — the connection context manager commits the empty
read-only transaction on normal exit; on every abort path the state is
unchanged and the error is returned to the caller, never swallowed. -/
theorem abort_paths_discipline (db : DB) (sid : Nat) (n p e : String) :
    ((create_booking_atomic db sid n p e).2.1.ok = false →
      (create_booking_atomic db sid n p e).1 = db ∧
      ((create_booking_atomic db sid n p e).2.1.msg = sessionNotFoundMsg ∨
       (create_booking_atomic db sid n p e).2.1.msg = sessionFullMsg)) ∧
    ((create_booking_atomic db sid n p e).2.1.msg = sessionFullMsg →
      (create_booking_atomic db sid n p e).2.2 = [TxnOp.rollback, TxnOp.commit]) ∧
    ((create_booking_atomic db sid n p e).2.1.msg = sessionNotFoundMsg →
      (create_booking_atomic db sid n p e).2.2 = [TxnOp.commit]) := by
  rcases create_spec db sid n p e with ⟨_, h⟩ | ⟨srow, _, _, h⟩ | ⟨srow, _, _, h⟩ <;>
    rw [h] <;>
    refine ⟨fun hx => ?_, fun hx => ?_, fun hx => ?_⟩ <;>
    first
      | rfl
      | exact ⟨rfl, Or.inl rfl⟩
      | exact ⟨rfl, Or.inr rfl⟩
      | simp [sessionNotFoundMsg, sessionFullMsg, bookingConfirmedMsg] at hx

/-- Witness for `abort_paths_discipline`: the concrete SessionFull path. -/
theorem abort_paths_discipline_witness :
    (create_booking_atomic fullDB 1 "Ana" "600123456" "ana@x.com").2.1.msg = sessionFullMsg ∧
    (create_booking_atomic fullDB 1 "Ana" "600123456" "ana@x.com").2.2
      = [TxnOp.rollback, TxnOp.commit] :=
  ⟨by decide,
    (abort_paths_discipline fullDB 1 "Ana" "600123456" "ana@x.com").2.1 (by decide)⟩

/-- A copy of the sample database whose serial sequence stands at 20 instead
of 10. -/
def sampleDBalt : DB := { sessions := [sampleSession], bookings := [], nextBookingId := 20 }

/-- C5 counterexample: two databases that differ only in the serial-sequence
value assign different identifiers (10 vs 20) to the newly inserted booking
row, yet `create_booking_atomic` returns the very same confirmation
`(True, "¡Reserva confirmada!")` in both — the source fetches the id
returned by `insert ... returning id;` into `_` and discards it — so the
returned confirmation cannot contain the identifier of the new row. -/
theorem confirmation_without_id_counterexample :
    (create_booking_atomic sampleDB 1 "Ana" "600123456" "ana@x.com").2.1
      = (create_booking_atomic sampleDBalt 1 "Ana" "600123456" "ana@x.com").2.1 ∧
    ((create_booking_atomic sampleDB 1 "Ana" "600123456" "ana@x.com").1.bookings.map
        (fun b => b.id)) = [10] ∧
    ((create_booking_atomic sampleDBalt 1 "Ana" "600123456" "ana@x.com").1.bookings.map
        (fun b => b.id)) = [20] := by
  decide

theorem fresh_step (db : DB) (sid : Nat) (n p e : String)
    (hfresh : ∀ b ∈ db.bookings, b.id < db.nextBookingId) :
    ∀ b ∈ (create_booking_atomic db sid n p e).1.bookings,
      b.id < (create_booking_atomic db sid n p e).1.nextBookingId := by
  rcases create_spec db sid n p e with ⟨_, h⟩ | ⟨srow, _, _, h⟩ | ⟨srow, _, _, h⟩ <;>
    rw [h]
  · exact hfresh
  · exact hfresh
  · intro b hb
    simp only [List.mem_append, List.mem_singleton] at hb
    rcases hb with hb | hb
    · exact Nat.lt_trans (hfresh b hb) (Nat.lt_succ_self _)
    · rw [hb]
      exact Nat.lt_succ_self _

theorem nodup_step (db : DB) (sid : Nat) (n p e : String)
    (hfresh : ∀ b ∈ db.bookings, b.id < db.nextBookingId)
    (hnodup : (db.bookings.map (fun b => b.id)).Nodup) :
    ((create_booking_atomic db sid n p e).1.bookings.map (fun b => b.id)).Nodup := by
  rcases create_bookings_cases db sid n p e with h | h <;> rw [h]
  · exact hnodup
  · rw [List.map_append, List.nodup_append]
    refine ⟨hnodup, by simp, ?_⟩
    intro a ha hamem
    simp only [List.mem_map] at ha
    rcases ha with ⟨b, hbmem, hbid⟩
    simp only [List.map_cons, List.map_nil, List.mem_singleton] at hamem
    have := hfresh b hbmem
    rw [hbid] at this
    rw [hamem] at this
    exact Nat.lt_irrefl _ this

theorem freshNodup_run (db : DB) (attempts : List Attempt)
    (hfresh : ∀ b ∈ db.bookings, b.id < db.nextBookingId)
    (hnodup : (db.bookings.map (fun b => b.id)).Nodup) :
    (∀ b ∈ (runAttempts db attempts).bookings,
        b.id < (runAttempts db attempts).nextBookingId) ∧
    ((runAttempts db attempts).bookings.map (fun b => b.id)).Nodup := by
  induction attempts generalizing db with
  | nil => exact ⟨hfresh, hnodup⟩
  | cons a rest ih =>
      exact ih _ (fresh_step db a.session_id a.full_name a.phone a.email hfresh)
        (nodup_step db a.session_id a.full_name a.phone a.email hfresh hnodup)

/-- C5 (amended): on a successful booking `create_booking_atomic` returns ok
with the fixed confirmation message `"¡Reserva confirmada!"`, which does not
carry the new booking identifier (the id returned by the insert is read into
`_` and discarded); the inserted Booking rows themselves do receive distinct
identifiers: across any sequence of calls, starting from a table with
pairwise-distinct booking ids all below the serial-sequence value, the
booking ids remain pairwise distinct. -/
theorem booking_ids_distinct (db : DB) (attempts : List Attempt)
    (hfresh : ∀ b ∈ db.bookings, b.id < db.nextBookingId)
    (hnodup : (db.bookings.map (fun b => b.id)).Nodup) :
    ((runAttempts db attempts).bookings.map (fun b => b.id)).Nodup ∧
    ∀ sid n p e, (create_booking_atomic db sid n p e).2.1.ok = true →
      (create_booking_atomic db sid n p e).2.1.msg = bookingConfirmedMsg := by
  refine ⟨(freshNodup_run db attempts hfresh hnodup).2, ?_⟩
  intro sid n p e hok
  rcases create_spec db sid n p e with ⟨_, h⟩ | ⟨srow, _, _, h⟩ | ⟨srow, _, _, h⟩ <;>
    rw [h] at hok ⊢
  · simp at hok
  · simp at hok

/-- Witness for `booking_ids_distinct`: two successful insertions into the
sample database receive the distinct ids 10 and 11. -/
theorem booking_ids_distinct_witness :
    ((∀ b ∈ sampleDBalt.bookings, b.id < sampleDBalt.nextBookingId) ∧
     (sampleDBalt.bookings.map (fun b => b.id)).Nodup) ∧
    ((runAttempts sampleDBalt
        [⟨1, "Ana", "600123456", "ana@x.com"⟩]).bookings.map (fun b => b.id)).Nodup :=
  ⟨⟨by decide, by decide⟩,
    (booking_ids_distinct sampleDBalt [⟨1, "Ana", "600123456", "ana@x.com"⟩]
      (by decide) (by decide)).1⟩

theorem mem_insertSorted (x y : SessionQueryRow) (l : List SessionQueryRow) :
    y ∈ insertSorted x l ↔ y = x ∨ y ∈ l := by
  induction l with
  | nil => simp [insertSorted]
  | cons z t ih =>
      simp only [insertSorted]
      split
      · simp only [List.mem_cons]
      · simp only [List.mem_cons, ih]
        tauto

theorem mem_sortRows (y : SessionQueryRow) (l : List SessionQueryRow) :
    y ∈ sortRows l ↔ y ∈ l := by
  induction l with
  | nil => simp [sortRows]
  | cons z t ih =>
      show y ∈ insertSorted z (sortRows t) ↔ y ∈ z :: t
      rw [mem_insertSorted, ih]
      simp only [List.mem_cons]

/-- C7: the remaining value computed by the program equals the session's
capacity minus the current count of Booking rows referencing that session —
every row of `fetch_sessions` satisfies `remaining = capacity − bookedCount`
(and corresponds to an actual stored session for the requested date), and
inside `create_booking_atomic` the decision for a found session row is taken
on exactly `capacity − bookedCount`: the call succeeds iff that difference is
positive. -/
theorem remaining_correct (db : DB) (d : Nat) :
    (∀ row ∈ fetch_sessions db d,
       row.remaining = row.capacity - (bookedCount db.bookings row.id : Int) ∧
       row.booked = bookedCount db.bookings row.id ∧
       ∃ s ∈ db.sessions, s.event_date = d ∧ s.id = row.id ∧ s.capacity = row.capacity) ∧
    (∀ sid n p e srow, db.sessions.find? (fun s => s.id == sid) = some srow →
       ((create_booking_atomic db sid n p e).2.1.ok = true ↔
         0 < srow.capacity - (bookedCount db.bookings sid : Int))) := by
  constructor
  · intro row hrow
    simp only [fetch_sessions] at hrow
    rw [List.mem_map] at hrow
    obtain ⟨r, hr, hrow⟩ := hrow
    rw [mem_sortRows, List.mem_map] at hr
    obtain ⟨s, hs, hr_eq⟩ := hr
    rw [List.mem_filter] at hs
    obtain ⟨hs_mem, hs_date⟩ := hs
    subst hrow
    subst hr_eq
    exact ⟨rfl, rfl, s, hs_mem, by simpa using hs_date, rfl, rfl⟩
  · intro sid n p e srow hfind
    rcases create_spec db sid n p e with ⟨hnone, h⟩ | ⟨srow2, hfind2, hrem, h⟩ |
        ⟨srow2, hfind2, hrem, h⟩ <;> rw [h]
    · rw [hfind] at hnone
      cases hnone
    · rw [hfind] at hfind2
      injection hfind2 with he
      subst he
      constructor
      · intro hx
        exact absurd hx (by simp)
      · intro hx
        exact absurd hx (by omega)
    · rw [hfind] at hfind2
      injection hfind2 with he
      subst he
      constructor
      · intro _
        exact hrem
      · intro _
        rfl

/-- Witness for `remaining_correct`: the sample session renders with
remaining = 1 = capacity − 0. -/
theorem remaining_correct_witness :
    (⟨1, "Yoga", 900, 1000, 1, 0, 1⟩ : SessionView) ∈ fetch_sessions sampleDB 0 ∧
    (⟨1, "Yoga", 900, 1000, 1, 0, 1⟩ : SessionView).remaining
      = (⟨1, "Yoga", 900, 1000, 1, 0, 1⟩ : SessionView).capacity
          - (bookedCount sampleDB.bookings 1 : Int) :=
  ⟨by decide, ((remaining_correct sampleDB 0).1 _ (by decide)).1⟩

/-- C8: computing remaining twice against the same persistent state yields
the same value — `fetch_sessions` is a pure read depending only on the
stored sessions and bookings rows (not, e.g., on the serial-sequence value),
and a failed `create_booking_atomic` attempt (no intervening insertion)
leaves the `fetch_sessions` result, hence every remaining value, unchanged. -/
theorem remaining_read_idempotent (db1 db2 : DB) (d : Nat)
    (hs : db1.sessions = db2.sessions) (hb : db1.bookings = db2.bookings) :
    fetch_sessions db1 d = fetch_sessions db2 d ∧
    ∀ sid n p e, (create_booking_atomic db1 sid n p e).2.1.ok = false →
      fetch_sessions (create_booking_atomic db1 sid n p e).1 d
        = fetch_sessions db1 d := by
  constructor
  · obtain ⟨s1, b1, n1⟩ := db1
    obtain ⟨s2, b2, n2⟩ := db2
    obtain rfl : s1 = s2 := hs
    obtain rfl : b1 = b2 := hb
    rfl
  · intro sid n p e hfail
    rw [create_fail_eq db1 sid n p e hfail]

/-- Witness for `remaining_read_idempotent`: two databases that differ only
in the serial-sequence value render identically. -/
theorem remaining_read_idempotent_witness :
    (sampleDB.sessions = sampleDBalt.sessions ∧ sampleDB.bookings = sampleDBalt.bookings) ∧
    fetch_sessions sampleDB 0 = fetch_sessions sampleDBalt 0 :=
  ⟨⟨by decide, by decide⟩,
    (remaining_read_idempotent sampleDB sampleDBalt 0 (by decide) (by decide)).1⟩

/-- C9: the admin panel grants access iff the entered password is non-empty
and equal to the configured admin password; an empty entry yields no action
at all (neither success nor the wrong-password error), even when the
configured password is itself empty because neither the secret
`st.secrets["admin"]["password"]` nor the `ADMIN_PASSWORD` environment
variable is set. -/
theorem admin_gate_correct (entered stored : String) :
    ((adminGate entered stored = AdminOutcome.granted)
      ↔ (entered ≠ "" ∧ entered = stored)) ∧
    adminGate "" stored = AdminOutcome.noAction ∧
    get_admin_password none none = "" ∧
    adminGate "" (get_admin_password none none) = AdminOutcome.noAction := by
  refine ⟨?_, ?_, rfl, ?_⟩
  · unfold adminGate
    by_cases h : entered ≠ "" ∧ entered = stored
    · rw [if_pos h]
      exact iff_of_true rfl h
    · rw [if_neg h]
      constructor
      · intro hx
        split at hx <;> exact absurd hx (by decide)
      · intro hx
        exact absurd hx h
  · unfold adminGate
    rw [if_neg (by simp), if_neg (by simp)]
  · unfold adminGate
    rw [if_neg (by simp), if_neg (by simp)]

theorem char_toNat_ofNat (n : Nat) (h : n.isValidChar) : (Char.ofNat n).toNat = n := by
  simp [Char.ofNat, h, Char.ofNatAux, Char.toNat, UInt32.toNat, BitVec.toNat_ofNatLt]

theorem isPySpace_pyLowerChar (c : Char) :
    isPySpace (pyLowerChar c) = isPySpace c := by
  unfold pyLowerChar
  split
  · rename_i h
    have hv : (c.toNat + 32).isValidChar := Or.inl (by omega)
    have ht : (Char.ofNat (c.toNat + 32)).toNat = c.toNat + 32 := char_toNat_ofNat _ hv
    have hfalse1 : isPySpace (Char.ofNat (c.toNat + 32)) = false := by
      simp only [isPySpace, ht, Bool.or_eq_false_iff, beq_eq_false_iff_ne, ne_eq]
      omega
    have hfalse2 : isPySpace c = false := by
      simp only [isPySpace, Bool.or_eq_false_iff, beq_eq_false_iff_ne, ne_eq]
      omega
    rw [hfalse1, hfalse2]
  · rfl

theorem notUpper_pyLowerChar (c : Char) :
    (65 ≤ (pyLowerChar c).toNat && (pyLowerChar c).toNat ≤ 90) = false := by
  unfold pyLowerChar
  split
  · rename_i h
    have hv : (c.toNat + 32).isValidChar := Or.inl (by omega)
    rw [char_toNat_ofNat _ hv]
    simp only [Bool.and_eq_false_iff, decide_eq_false_iff_not]
    omega
  · rename_i h
    simp only [Bool.and_eq_false_iff, decide_eq_false_iff_not]
    omega

theorem headIsSpace_dropWhile (l : List Char) :
    headIsSpace (l.dropWhile isPySpace) = false := by
  induction l with
  | nil => rfl
  | cons c t ih =>
      rw [List.dropWhile_cons]
      by_cases h : isPySpace c = true
      · rw [if_pos h]
        exact ih
      · rw [if_neg h]
        simpa [headIsSpace] using h

theorem headIsSpace_of_prefix (u y : List Char) (h : u <+: y)
    (hy : headIsSpace y = false) : headIsSpace u = false := by
  obtain ⟨t, rfl⟩ := h
  cases u with
  | nil => rfl
  | cons c u2 => exact hy

theorem pyStrip_no_edge_space (s : String) :
    hasLeadingSpace (pyStrip s) = false ∧ hasTrailingSpace (pyStrip s) = false := by
  constructor
  · show headIsSpace
      (((s.data.dropWhile isPySpace).reverse.dropWhile isPySpace).reverse) = false
    have hy : headIsSpace (s.data.dropWhile isPySpace) = false := headIsSpace_dropWhile _
    have hsuf : (s.data.dropWhile isPySpace).reverse.dropWhile isPySpace
        <:+ (s.data.dropWhile isPySpace).reverse := List.dropWhile_suffix _
    have hpre := List.reverse_prefix.mpr hsuf
    rw [List.reverse_reverse] at hpre
    exact headIsSpace_of_prefix _ _ hpre hy
  · show headIsSpace
      ((((s.data.dropWhile isPySpace).reverse.dropWhile isPySpace).reverse).reverse) = false
    rw [List.reverse_reverse]
    exact headIsSpace_dropWhile _

theorem headIsSpace_map_pyLowerChar (l : List Char) :
    headIsSpace (l.map pyLowerChar) = headIsSpace l := by
  cases l with
  | nil => rfl
  | cons c t => exact isPySpace_pyLowerChar c

theorem hasAsciiUpper_pyLower (s : String) : hasAsciiUpper (pyLower s) = false := by
  show (s.data.map pyLowerChar).any (fun c => 65 ≤ c.toNat && c.toNat ≤ 90) = false
  rw [List.any_map]
  rw [List.any_eq_false]
  intro c hc
  simp only [Function.comp_apply]
  rw [notUpper_pyLowerChar]
  exact Bool.false_ne_true

/-- C10: the attendee fields the submit handler passes to
`create_booking_atomic` are normalized before storage — the full name and
phone are stripped of surrounding whitespace and the email is stripped and
lowercased — so none of the three stored fields has leading or trailing
whitespace, the stored email contains no ASCII uppercase letter, and any
booking row a `submitBooking` call adds to the table carries exactly these
normalized values. -/
theorem submit_fields_normalized (full_name phone email : String)
    (db : DB) (sid : Nat) :
    hasLeadingSpace (pyStrip full_name) = false ∧
    hasTrailingSpace (pyStrip full_name) = false ∧
    hasLeadingSpace (pyStrip phone) = false ∧
    hasTrailingSpace (pyStrip phone) = false ∧
    hasLeadingSpace (pyLower (pyStrip email)) = false ∧
    hasTrailingSpace (pyLower (pyStrip email)) = false ∧
    hasAsciiUpper (pyLower (pyStrip email)) = false ∧
    ∀ b ∈ (submitBooking db sid full_name phone email).1.bookings,
      b ∈ db.bookings ∨
        (b.full_name = pyStrip full_name ∧ b.phone = pyStrip phone ∧
         b.email = pyLower (pyStrip email)) := by
  refine ⟨(pyStrip_no_edge_space full_name).1, (pyStrip_no_edge_space full_name).2,
    (pyStrip_no_edge_space phone).1, (pyStrip_no_edge_space phone).2, ?_, ?_,
    hasAsciiUpper_pyLower _, ?_⟩
  · show headIsSpace ((pyStrip email).data.map pyLowerChar) = false
    rw [headIsSpace_map_pyLowerChar]
    exact (pyStrip_no_edge_space email).1
  · show headIsSpace (((pyStrip email).data.map pyLowerChar).reverse) = false
    rw [← List.map_reverse, headIsSpace_map_pyLowerChar]
    exact (pyStrip_no_edge_space email).2
  · intro b hb
    unfold submitBooking at hb
    rcases create_bookings_cases db sid (pyStrip full_name) (pyStrip phone)
        (pyLower (pyStrip email)) with h | h <;> rw [h] at hb
    · exact Or.inl hb
    · rw [List.mem_append, List.mem_singleton] at hb
      rcases hb with hb | hb
      · exact Or.inl hb
      · rw [hb]
        exact Or.inr ⟨rfl, rfl, rfl⟩

/-- Witness for `submit_fields_normalized`: a concrete submitted form with
padded, upper-case fields is stored stripped and lowercased. -/
theorem submit_fields_normalized_witness :
    (⟨10, 1, "Ana Lopez", "600123456", "ana@x.com"⟩ : Booking)
        ∈ (submitBooking sampleDB 1 "  Ana Lopez " " 600123456 " " ANA@X.COM ").1.bookings ∧
    ((⟨10, 1, "Ana Lopez", "600123456", "ana@x.com"⟩ : Booking) ∈ sampleDB.bookings ∨
      ((⟨10, 1, "Ana Lopez", "600123456", "ana@x.com"⟩ : Booking).full_name
          = pyStrip "  Ana Lopez " ∧
       (⟨10, 1, "Ana Lopez", "600123456", "ana@x.com"⟩ : Booking).phone
          = pyStrip " 600123456 " ∧
       (⟨10, 1, "Ana Lopez", "600123456", "ana@x.com"⟩ : Booking).email
          = pyLower (pyStrip " ANA@X.COM "))) :=
  ⟨by decide,
    (submit_fields_normalized "  Ana Lopez " " 600123456 " " ANA@X.COM "
        sampleDB 1).2.2.2.2.2.2.2 _ (by decide)⟩
